import Mathlib

/-!
# Verification of the bybitbotgpt trading-bot core

Shallow embedding of the trading bot's core decision logic, translated from
the Python sources:

* `backend/core/enhanced_risk_manager.py` — the `TrailingStopOrder`
  state machine (`update_trailing_stop`, `should_trigger`) and the
  per-tick processing loop of `EnhancedRiskManager.update_trailing_stops`.
* `backend/core/trading_engine.py` — quantity formatting
  (`format_qty_for_bybit`, `adjust_qty`), new-position sizing in
  `_execute_trade`, the retry loop of `place_order`, and position
  reconciliation (`sync_positions_with_exchange`).
* `backend/core/signal_processor.py` — `should_trade` consensus gate.
* `backend/core/pair_reversal_watcher.py` — the vote-counting core of
  `detect_reversal`.
* `backend/core/market_analyzer.py` — volatility bucketing of
  `_analyze_volatility`.

Prices and quantities are modelled as exact rationals (`ℚ`); the Python
sources use `float` and `Decimal` — the decimal arithmetic the claims
exercise is exact at the magnitudes involved.  Timestamps
(`datetime.now()`) are modelled as an abstract `now : ℕ` parameter.
-/

namespace BybitBot

/-- Python's `decimal.ROUND_HALF_UP` (round to nearest, ties away from
zero) as used by `adjust_qty` and `format_qty_for_bybit`. -/
def pyRoundHalfUp (x : ℚ) : ℤ :=
  if 0 ≤ x then ⌊x + 1/2⌋ else -⌊-x + 1/2⌋

/-- Python's `int(...)` truncation toward zero. -/
def pyTrunc (x : ℚ) : ℤ :=
  if 0 ≤ x then ⌊x⌋ else -⌊-x⌋

/-- Python's built-in banker's rounding `round(x, 3)` (round half to even
at three decimal places), used by `place_order` when doubling a rejected
quantity (`round(amount * 2, 3)`). -/
def pyRound3 (x : ℚ) : ℚ :=
  let y := x * 1000
  let f : ℤ := ⌊y⌋
  let r :=
    if y - (f : ℚ) < 1/2 then f
    else if (1/2 : ℚ) < y - (f : ℚ) then f + 1
    else if Even f then f else f + 1
  (r : ℚ) / 1000

/-! ## TrailingStopOrder (enhanced_risk_manager.py, lines 21–117) -/

/-- `StopLossType` enum from `enhanced_risk_manager.py`. -/
inductive StopLossType where
  | FIXED
  | TRAILING
  | ATR_BASED
  | PERCENTAGE
  | VOLATILITY_ADJUSTED
deriving DecidableEq, Repr

/-- The mutable state of a `TrailingStopOrder` (`__init__`, lines 42–55).
`created_at`/`last_update` are abstract tick counters standing for the
source's `datetime.now()` values. -/
structure TrailingStopOrder where
  symbol : String
  side : String
  entry_price : ℚ
  initial_stop : ℚ
  current_stop : ℚ
  trailing_distance : ℚ
  stop_type : StopLossType
  best_price : ℚ
  created_at : ℕ
  last_update : ℕ
  is_active : Bool
deriving DecidableEq, Repr

/-- Python truthiness of the optional `atr` argument: `None` and `0.0`
are falsy (`elif self.stop_type == StopLossType.ATR_BASED and atr:`). -/
def atrTruthy (atr : Option ℚ) : Bool :=
  match atr with
  | none => false
  | some a => decide (a ≠ 0)

/-- Candidate stop for a long position (`update_trailing_stop`,
lines 69–76): the `new_stop` chosen by the `if/elif` chain on
`stop_type`.  An `ATR_BASED` stop with falsy `atr` falls through to the
final `else`. -/
def buy_candidate_stop (o : TrailingStopOrder) (current_price : ℚ)
    (atr : Option ℚ) : ℚ :=
  if o.stop_type = StopLossType.TRAILING then
    current_price - o.trailing_distance
  else if o.stop_type = StopLossType.ATR_BASED ∧ atrTruthy atr = true then
    current_price - (atr.getD 0) * 2
  else if o.stop_type = StopLossType.PERCENTAGE then
    current_price * (1 - o.trailing_distance)
  else
    current_price - o.trailing_distance

/-- Candidate stop for a short position (`update_trailing_stop`,
lines 86–93). -/
def sell_candidate_stop (o : TrailingStopOrder) (current_price : ℚ)
    (atr : Option ℚ) : ℚ :=
  if o.stop_type = StopLossType.TRAILING then
    current_price + o.trailing_distance
  else if o.stop_type = StopLossType.ATR_BASED ∧ atrTruthy atr = true then
    current_price + (atr.getD 0) * 2
  else if o.stop_type = StopLossType.PERCENTAGE then
    current_price * (1 + o.trailing_distance)
  else
    current_price + o.trailing_distance

/-- `TrailingStopOrder.update_trailing_stop` (lines 57–107).  Returns the
new state together with the `updated` flag the method returns.  The
`except` clause is unreachable for the pure arithmetic modelled here.
`now` stands for `datetime.now()` assigned to `last_update` when the
stop moves. -/
def update_trailing_stop (o : TrailingStopOrder) (current_price : ℚ)
    (atr : Option ℚ) (now : ℕ) : TrailingStopOrder × Bool :=
  if o.is_active = false then (o, false)
  else if o.side = "BUY" then
    -- long position
    if o.best_price < current_price then
      if o.current_stop < buy_candidate_stop o current_price atr then
        ({ o with best_price := current_price,
                  current_stop := buy_candidate_stop o current_price atr,
                  last_update := now }, true)
      else
        ({ o with best_price := current_price }, false)
    else (o, false)
  else
    -- short position (any side other than "BUY")
    if current_price < o.best_price then
      if sell_candidate_stop o current_price atr < o.current_stop then
        ({ o with best_price := current_price,
                  current_stop := sell_candidate_stop o current_price atr,
                  last_update := now }, true)
      else
        ({ o with best_price := current_price }, false)
    else (o, false)

/-- `TrailingStopOrder.should_trigger` (lines 109–117). -/
def should_trigger (o : TrailingStopOrder) (current_price : ℚ) : Bool :=
  if o.is_active = false then false
  else if o.side = "BUY" then decide (current_price ≤ o.current_stop)
  else decide (o.current_stop ≤ current_price)

/-- One iteration of `EnhancedRiskManager.update_trailing_stops`
(lines 295–331) for a single stop: inactive stops are skipped
(`continue`); otherwise the stop is updated with the current price and
then checked for trigger; a triggered stop is reported and deactivated
(`is_active = False`).  Returns the new state and whether the stop
triggered on this tick. -/
def manager_process_tick (o : TrailingStopOrder) (current_price : ℚ)
    (atr : Option ℚ) (now : ℕ) : TrailingStopOrder × Bool :=
  if o.is_active = false then (o, false)
  else
    let o1 := (update_trailing_stop o current_price atr now).1
    if should_trigger o1 current_price then
      ({ o1 with is_active := false }, true)
    else (o1, false)

/-- Apply a sequence of `(price, atr)` ticks through
`update_trailing_stop` and record the stop level before and after each
tick (the trace of `current_stop` values over time). -/
def stop_trace (o : TrailingStopOrder) : List (ℚ × Option ℚ) → List ℚ
  | [] => [o.current_stop]
  | t :: ts =>
      o.current_stop :: stop_trace (update_trailing_stop o t.1 t.2 0).1 ts

/-! ## Quantity handling (trading_engine.py, lines 409–579) -/

/-- `TradingEngine.adjust_qty` (lines 409–473), with the exchange lot
parameters (`qtyStep`, `minOrderQty`) as explicit arguments in place of
the HTTP fetch.  `Decimal` arithmetic is modelled exactly on `ℚ`;
`int(...)` for whole-lot steps is truncation toward zero. -/
def adjust_qty (qty qty_step min_order_qty : ℚ) : ℚ :=
  let q := |qty|
  let qty_adjusted := (pyRoundHalfUp (q / qty_step) : ℚ) * qty_step
  let qty_adjusted :=
    if qty_adjusted < min_order_qty then min_order_qty else qty_adjusted
  if 1 ≤ qty_step then (pyTrunc qty_adjusted : ℚ) else qty_adjusted

/-- Stage 1 of `format_qty_for_bybit` (line 530): qty не может быть
меньше minOrderQty. -/
def format_qty_clamped (qty min_order_qty : ℚ) : ℚ :=
  if qty < min_order_qty then min_order_qty else qty

/-- Stage 2 of `format_qty_for_bybit` (lines 536–538): round to the
nearest multiple of `qtyStep` (`ROUND_HALF_UP`). -/
def format_qty_stepped (qty qty_step : ℚ) : ℚ :=
  if 0 < qty_step then (pyRoundHalfUp (qty / qty_step) : ℚ) * qty_step
  else qty

/-- `min_qty_for_value` of `format_qty_for_bybit` (lines 547–549): the
minimum quantity for `minNotionalValue` USDT, rounded with
`ROUND_HALF_UP` — to the *nearest* step, not upward. -/
def min_qty_for_value (price qty_step min_notional_value : ℚ) : ℚ :=
  (pyRoundHalfUp ((min_notional_value / price) / qty_step) : ℚ) * qty_step

/-- Stage 3 of `format_qty_for_bybit` (lines 544–556): raise the
quantity to `min_qty_for_value` when below it (the `price is not None
and price > 0` guard kept as `0 < price`). -/
def format_qty_notional (qty price qty_step min_notional_value : ℚ) : ℚ :=
  if 0 < price then
    if qty < min_qty_for_value price qty_step min_notional_value then
      min_qty_for_value price qty_step min_notional_value
    else qty
  else qty

/-- Stage 4 of `format_qty_for_bybit` (lines 558–568): проверка
кратности qtyStep — re-round if the quantity is not an exact multiple
of the step. -/
def format_qty_multiple_fix (qty qty_step : ℚ) : ℚ :=
  if qty / qty_step = (⌊qty / qty_step⌋ : ℚ) then qty
  else (pyRoundHalfUp (qty / qty_step) : ℚ) * qty_step

/-- `TradingEngine.format_qty_for_bybit` (lines 475–579), numeric value:
the four stages above in source order.  The exchange lot parameters
(`qtyStep`, `minOrderQty`, `minNotionalValue`) are explicit arguments
in place of the HTTP fetch.  The final string formatting (stripping
trailing zeros) preserves the numeric value, so the function is
modelled as returning that value. -/
def format_qty_for_bybit (qty price qty_step min_order_qty
    min_notional_value : ℚ) : ℚ :=
  format_qty_multiple_fix
    (format_qty_notional
      (format_qty_stepped (format_qty_clamped qty min_order_qty) qty_step)
      price qty_step min_notional_value)
    qty_step

/-- The quantity computed by `TradingEngine._execute_trade`
(lines 593–675) for a new position: `target_position_value = 100` USDT,
`required_value = max(target_position_value * leverage,
min_notional_value)`, `qty = required_value / current_price`, then
`adjust_qty`. -/
def execute_trade_qty (leverage current_price qty_step min_order_qty
    min_notional_value : ℚ) : ℚ :=
  let target_position_value : ℚ := 100
  let required_value := max (target_position_value * leverage) min_notional_value
  let qty := required_value / current_price
  adjust_qty qty qty_step min_order_qty

/-- The acceptance-band check of `_execute_trade` (lines 669–675): the
order is submitted only when `calculated_value = qty * current_price`
is within 800–1200 USDT. -/
def position_value_in_band (calculated_value : ℚ) : Bool :=
  decide (¬(calculated_value < 800 ∨ 1200 < calculated_value))

/-! ## Order submission retry loop (trading_engine.py, lines 847–918) -/

/-- Python's `pat in s` substring test: `pat` occurs contiguously in
`s`. -/
def contains_substr (s pat : String) : Bool :=
  decide (pat.data <:+: s.data)

/-- The margin-insufficiency rejection class recognised by
`place_order` (line 898): `retMsg` contains `"110007"` or
`"ab not enough for new order"`. -/
def is_margin_error (retMsg : String) : Bool :=
  contains_substr retMsg "110007" ||
    contains_substr retMsg "ab not enough for new order"

/-- Exchange reply to one order submission (`retCode`/`retMsg` of the
Bybit v5 response). -/
structure OrderResponse where
  retCode : Int
  retMsg : String

/-- Outcome of `place_order`: the `success` flag of the returned dict,
its `error` message when failing, and the sequence of requested
quantities (the `amount` variable) submitted, in order. -/
structure PlaceOrderResult where
  success : Bool
  error : Option String
  submitted : List ℚ
deriving Repr

/-- The retry loop of `TradingEngine.place_order` (lines 847–914):
`max_attempts = 3`, `max_qty = 1000`; the exchange is modelled as a
response per submission index.  On `retCode == 0` the structured
success result is returned; on a margin-insufficiency rejection the
quantity is doubled (`round(amount * 2, 3)`), the loop aborts if the
doubled quantity exceeds `max_qty`, otherwise it retries; any other
rejection returns a structured failure immediately.  `remaining` is
`max_attempts - attempt`. -/
def place_order_go (exch : ℕ → OrderResponse) :
    ℕ → ℚ → List ℚ → PlaceOrderResult
  | 0, _amount, submitted =>
      -- Не удалось выставить ордер после увеличения qty (line 914)
      { success := false, error := some "Не удалось выставить ордер после увеличения qty",
        submitted := submitted }
  | n + 1, amount, submitted =>
      -- order_result = exch applied to the current submission index
      if (exch submitted.length).retCode = 0 then
        { success := true, error := none, submitted := submitted ++ [amount] }
      else if is_margin_error (exch submitted.length).retMsg = true then
        if 1000 < pyRound3 (amount * 2) then
          { success := false, error := some "Достигнут лимит qty",
            submitted := submitted ++ [amount] }
        else
          place_order_go exch n (pyRound3 (amount * 2)) (submitted ++ [amount])
      else
        { success := false, error := some (exch submitted.length).retMsg,
          submitted := submitted ++ [amount] }

/-- `TradingEngine.place_order` retry loop, started with `attempt = 0`
and the caller's requested `amount`. -/
def place_order (exch : ℕ → OrderResponse) (amount : ℚ) : PlaceOrderResult :=
  place_order_go exch 3 amount []

/-! ## Consensus gate (signal_processor.py, lines 755–782) -/

/-- `SignalProcessor.get_signal_strength` vote count for one direction:
the number of indicator votes equal to `v` in the signals dict
(modelled as an association list `indicator ↦ vote`). -/
def vote_count (signals : List (String × String)) (v : String) : ℕ :=
  (signals.filter (fun s => decide (s.2 = v))).length

/-- Python's `signals.get(key, default)` on the association list. -/
def dict_get (signals : List (String × String)) (key dflt : String) : String :=
  match signals.find? (fun s => decide (s.1 = key)) with
  | some s => s.2
  | none => dflt

/-- `SignalProcessor.should_trade` (lines 770–782): `"BUY"` when the BUY
vote count reaches `min_confirmation` and the CMF vote is `"BUY"`, else
`"SELL"` symmetrically, else `None`. -/
def should_trade (signals : List (String × String))
    (min_confirmation : ℕ) : Option String :=
  -- cmf_signal = signals.get("CMF", "HOLD"), inlined
  if min_confirmation ≤ vote_count signals "BUY" ∧
      dict_get signals "CMF" "HOLD" = "BUY" then
    some "BUY"
  else if min_confirmation ≤ vote_count signals "SELL" ∧
      dict_get signals "CMF" "HOLD" = "SELL" then
    some "SELL"
  else none

/-- The decision rule in the words of claim C6, for comparison with
`should_trade`: a non-null decision exactly when the *winning* side's
vote count reaches `min_confirmation` and the CMF vote agrees with that
same (winning) direction. -/
def claimed_should_trade (signals : List (String × String))
    (min_confirmation : ℕ) : Option String :=
  let b := vote_count signals "BUY"
  let s := vote_count signals "SELL"
  let cmf_signal := dict_get signals "CMF" "HOLD"
  if s < b then
    if min_confirmation ≤ b ∧ cmf_signal = "BUY" then some "BUY" else none
  else if b < s then
    if min_confirmation ≤ s ∧ cmf_signal = "SELL" then some "SELL" else none
  else none

/-! ## Reversal detection core (pair_reversal_watcher.py, lines 159–229) -/

/-- The per-evaluation inputs of `PairReversalWatcher.detect_reversal`
after the indicator computations: last RSI value, last MACD line and
signal line, last close, last Bollinger bands, support/resistance
distances, and the detected candlestick pattern names. -/
structure ReversalInputs where
  last_rsi : ℚ
  macd : ℚ
  macd_signal : ℚ
  close : ℚ
  lower_bb : ℚ
  upper_bb : ℚ
  support_distance : ℚ
  resistance_distance : ℚ
  patterns : List String
deriving DecidableEq, Repr

/-- `any(p in patterns for p in ["hammer", "bullish_engulfing"])`
(line 207). -/
def has_bullish_pattern (patterns : List String) : Bool :=
  patterns.any (fun p => decide (p = "hammer")) ||
    patterns.any (fun p => decide (p = "bullish_engulfing"))

/-- `any(p in patterns for p in ["shooting_star", "bearish_engulfing"])`
(line 210). -/
def has_bearish_pattern (patterns : List String) : Bool :=
  patterns.any (fun p => decide (p = "shooting_star")) ||
    patterns.any (fun p => decide (p = "bearish_engulfing"))

/-- The `signals` counter of `detect_reversal` (lines 175–212): one
increment per firing condition, following the source's `if`/`elif`
structure. -/
def reversal_signals (i : ReversalInputs) : ℕ :=
  (if i.last_rsi < 30 then 1 else if 70 < i.last_rsi then 1 else 0) +
  (if i.macd_signal < i.macd then 1 else if i.macd < i.macd_signal then 1 else 0) +
  (if i.close < i.lower_bb then 1 else if i.upper_bb < i.close then 1 else 0) +
  (if i.support_distance < 1 then 1 else 0) +
  (if i.resistance_distance < 1 then 1 else 0) +
  (if has_bullish_pattern i.patterns = true then 1 else 0) +
  (if has_bearish_pattern i.patterns = true then 1 else 0)

/-- The `long_votes` counter of `detect_reversal`. -/
def reversal_long_votes (i : ReversalInputs) : ℕ :=
  (if i.last_rsi < 30 then 1 else 0) +
  (if i.macd_signal < i.macd then 1 else 0) +
  (if i.close < i.lower_bb then 1 else 0) +
  (if i.support_distance < 1 then 1 else 0) +
  (if has_bullish_pattern i.patterns = true then 1 else 0)

/-- The `short_votes` counter of `detect_reversal` (the `elif` guards
mirror the source: a short vote is only counted when the corresponding
long condition failed). -/
def reversal_short_votes (i : ReversalInputs) : ℕ :=
  (if i.last_rsi < 30 then 0 else if 70 < i.last_rsi then 1 else 0) +
  (if i.macd_signal < i.macd then 0 else if i.macd < i.macd_signal then 1 else 0) +
  (if i.close < i.lower_bb then 0 else if i.upper_bb < i.close then 1 else 0) +
  (if i.resistance_distance < 1 then 1 else 0) +
  (if has_bearish_pattern i.patterns = true then 1 else 0)

/-- The decision step of `detect_reversal` (lines 214–229) with no
higher-timeframe confirmation configured (`confirm_timeframe = None`,
so the block at lines 221–226 is skipped): returns the
`(reversal, direction)` pair. -/
def detect_reversal_core (i : ReversalInputs) : Bool × Option String :=
  if 2 ≤ reversal_signals i then
    (true,
      if 2 ≤ reversal_long_votes i then some "long"
      else if 2 ≤ reversal_short_votes i then some "short"
      else none)
  else (false, none)

/-! ## Position reconciliation (trading_engine.py, lines 1015–1034) -/

/-- One entry of the exchange's authoritative position list. -/
structure ExchangePosition where
  symbol : String
  side : String
  size : ℚ
deriving DecidableEq, Repr

/-- The `(symbol, side)` key of a position (`pos.get('side', 'Buy')` is
modelled by the `side` field directly). -/
def position_key (p : ExchangePosition) : String × String :=
  (p.symbol, p.side)

/-- Python's `k in keys` membership test. -/
def key_mem (k : String × String) (ks : List (String × String)) : Bool :=
  ks.any (fun x => decide (x = k))

/-- `real_keys` (line 1022): the `(symbol, side)` keys of
exchange-reported positions with `size > 0`. -/
def real_keys (real_positions : List ExchangePosition) :
    List (String × String) :=
  (real_positions.filter (fun p => decide (0 < p.size))).map position_key

/-- The remove-then-add pass of
`TradingEngine.sync_positions_with_exchange` (lines 1021–1031).  The
local ledger `active_positions` is an insertion-ordered map modelled as
an association list: first delete local keys absent from `real_keys`,
then append each exchange position with `size > 0` whose key is not yet
present (`sync_add_step` is the body of the add loop, folded over the
exchange list). -/
def sync_add_step (acc : List ((String × String) × ExchangePosition))
    (p : ExchangePosition) : List ((String × String) × ExchangePosition) :=
  if key_mem (position_key p) (acc.map Prod.fst) = false ∧ 0 < p.size then
    acc ++ [(position_key p, p)]
  else acc

def sync_positions (active : List ((String × String) × ExchangePosition))
    (real_positions : List ExchangePosition) :
    List ((String × String) × ExchangePosition) :=
  real_positions.foldl sync_add_step
    (active.filter (fun kv => key_mem kv.1 (real_keys real_positions)))

/-! ## Volatility bucketing (market_analyzer.py, lines 48–55, 192–228) -/

/-- `VolatilityLevel` enum from `market_analyzer.py`. -/
inductive VolatilityLevel where
  | VERY_LOW
  | LOW
  | MEDIUM
  | HIGH
  | VERY_HIGH
deriving DecidableEq, Repr

/-- `self.volatility_thresholds` (lines 49–55), in insertion order. -/
def volatility_thresholds : List (VolatilityLevel × ℚ) :=
  [(VolatilityLevel.VERY_LOW, 0.01), (VolatilityLevel.LOW, 0.02),
   (VolatilityLevel.MEDIUM, 0.04), (VolatilityLevel.HIGH, 0.08),
   (VolatilityLevel.VERY_HIGH, 0.15)]

/-- `volatility_pct = (current_atr / close.iloc[-1]) * 100`
(line 200). -/
def volatility_pct_of (current_atr last_close : ℚ) : ℚ :=
  current_atr / last_close * 100

/-- The bucketing loop of `_analyze_volatility` (lines 203–207):
default `MEDIUM`, replaced by the first level whose threshold the
percentage does not exceed (`if volatility_pct <= threshold: ...;
break`). -/
def volatility_level_of (volatility_pct : ℚ) : VolatilityLevel :=
  match volatility_thresholds.find? (fun lt => decide (volatility_pct ≤ lt.2)) with
  | some lt => lt.1
  | none => VolatilityLevel.MEDIUM

/-- `"is_high": volatility_pct > 0.04` (line 222). -/
def volatility_is_high (volatility_pct : ℚ) : Bool :=
  decide ((0.04 : ℚ) < volatility_pct)

/-- The bucketing in the words of claim C9, for comparison: the ATR
percentage measured against the thresholds 1%, 2%, 4%, 8%, 15% — i.e.
against `1, 2, 4, 8, 15` on the percent scale the code computes
`volatility_pct` in. -/
def claimed_volatility_level (volatility_pct : ℚ) : VolatilityLevel :=
  if volatility_pct ≤ 1 then VolatilityLevel.VERY_LOW
  else if volatility_pct ≤ 2 then VolatilityLevel.LOW
  else if volatility_pct ≤ 4 then VolatilityLevel.MEDIUM
  else if volatility_pct ≤ 8 then VolatilityLevel.HIGH
  else VolatilityLevel.VERY_HIGH

/-- `is_high` in the words of claim C9: the percentage exceeds the 4%
threshold. -/
def claimed_volatility_is_high (volatility_pct : ℚ) : Bool :=
  decide ((4 : ℚ) < volatility_pct)

/-- The trailing stop of the spec's example scenario (claim C2): long
side, entry 100, trailing distance 2, initial stop 98. -/
def exampleLongStop : TrailingStopOrder :=
  { symbol := "BTCUSDT", side := "BUY", entry_price := 100,
    initial_stop := 98, current_stop := 98, trailing_distance := 2,
    stop_type := StopLossType.TRAILING, best_price := 100,
    created_at := 0, last_update := 0, is_active := true }

/-! ## Lemmas about the trailing-stop state machine -/

theorem update_trailing_stop_side (o : TrailingStopOrder) (p : ℚ)
    (atr : Option ℚ) (now : ℕ) :
    ((update_trailing_stop o p atr now).1).side = o.side := by
  unfold update_trailing_stop
  split_ifs <;> rfl

theorem update_trailing_stop_stop_le (o : TrailingStopOrder) (p : ℚ)
    (atr : Option ℚ) (now : ℕ) (h : o.side = "BUY") :
    o.current_stop ≤ ((update_trailing_stop o p atr now).1).current_stop := by
  unfold update_trailing_stop
  split_ifs <;> simp_all
  linarith

theorem update_trailing_stop_stop_ge (o : TrailingStopOrder) (p : ℚ)
    (atr : Option ℚ) (now : ℕ) (h : ¬ o.side = "BUY") :
    ((update_trailing_stop o p atr now).1).current_stop ≤ o.current_stop := by
  unfold update_trailing_stop
  split_ifs <;> simp_all
  linarith

theorem update_trailing_stop_accepted_buy (o : TrailingStopOrder) (p : ℚ)
    (atr : Option ℚ) (now : ℕ) (h : o.side = "BUY")
    (hacc : (update_trailing_stop o p atr now).2 = true) :
    o.current_stop < ((update_trailing_stop o p atr now).1).current_stop := by
  unfold update_trailing_stop at hacc ⊢
  split_ifs at hacc ⊢
  all_goals simp_all

theorem update_trailing_stop_accepted_sell (o : TrailingStopOrder) (p : ℚ)
    (atr : Option ℚ) (now : ℕ) (h : ¬ o.side = "BUY")
    (hacc : (update_trailing_stop o p atr now).2 = true) :
    ((update_trailing_stop o p atr now).1).current_stop < o.current_stop := by
  unfold update_trailing_stop at hacc ⊢
  split_ifs at hacc ⊢
  all_goals simp_all

theorem stop_trace_head (o : TrailingStopOrder) (ticks : List (ℚ × Option ℚ)) :
    (stop_trace o ticks).head? = some o.current_stop := by
  cases ticks <;> rfl

theorem stop_trace_chain_le (ticks : List (ℚ × Option ℚ)) :
    ∀ o : TrailingStopOrder, o.side = "BUY" →
      List.Chain' (· ≤ ·) (stop_trace o ticks) := by
  induction ticks with
  | nil => intro o _; simp [stop_trace]
  | cons t ts ih =>
      intro o h
      rw [stop_trace, List.chain'_cons']
      refine ⟨?_, ih _ (by rw [update_trailing_stop_side]; exact h)⟩
      intro y hy
      rw [stop_trace_head] at hy
      simp only [Option.mem_some_iff] at hy
      subst hy
      exact update_trailing_stop_stop_le o t.1 t.2 0 h

theorem stop_trace_chain_ge (ticks : List (ℚ × Option ℚ)) :
    ∀ o : TrailingStopOrder, ¬ o.side = "BUY" →
      List.Chain' (· ≥ ·) (stop_trace o ticks) := by
  induction ticks with
  | nil => intro o _; simp [stop_trace]
  | cons t ts ih =>
      intro o h
      rw [stop_trace, List.chain'_cons']
      refine ⟨?_, ih _ (by rw [update_trailing_stop_side]; exact h)⟩
      intro y hy
      rw [stop_trace_head] at hy
      simp only [Option.mem_some_iff] at hy
      subst hy
      exact update_trailing_stop_stop_ge o t.1 t.2 0 h

/-! ## Claim theorems -/

/-- **C1** (confirmed): for every trailing-stop order and every sequence
of price ticks applied through `update_trailing_stop`, the recorded
`current_stop` trace is non-decreasing when the side is `"BUY"` and
non-increasing when the side is `"SELL"`; moreover an update is
accepted (`updated = True`) only when the new stop is strictly more
favorable (higher for a long, lower for a short) than the previous
one. -/
theorem trailing_stop_monotone (o : TrailingStopOrder)
    (ticks : List (ℚ × Option ℚ)) :
    (o.side = "BUY" → List.Chain' (· ≤ ·) (stop_trace o ticks)) ∧
    (o.side = "SELL" → List.Chain' (· ≥ ·) (stop_trace o ticks)) ∧
    (∀ p atr now, (update_trailing_stop o p atr now).2 = true →
      (o.side = "BUY" →
        o.current_stop < ((update_trailing_stop o p atr now).1).current_stop) ∧
      (o.side = "SELL" →
        ((update_trailing_stop o p atr now).1).current_stop < o.current_stop)) := by
  refine ⟨fun h => stop_trace_chain_le ticks o h,
          fun h => stop_trace_chain_ge ticks o (by rw [h]; decide),
          fun p atr now hacc =>
            ⟨fun h => update_trailing_stop_accepted_buy o p atr now h hacc,
             fun h => update_trailing_stop_accepted_sell o p atr now
               (by rw [h]; decide) hacc⟩⟩

/-- Witness for C1 at the spec's example stop and the tick sequence
110, 105, 107. -/
theorem trailing_stop_monotone_witness :
    exampleLongStop.side = "BUY" ∧
    List.Chain' (· ≤ ·)
      (stop_trace exampleLongStop [(110, none), (105, none), (107, none)]) :=
  ⟨rfl,
   (trailing_stop_monotone exampleLongStop
      [(110, none), (105, none), (107, none)]).1 rfl⟩

/-- **C2** counterexample: with entry 100, distance 2, initial stop 98,
after the 110 tick the stop is 108; at the 105 tick the trigger check
already fires (105 ≤ 108), contradicting the claim that no trigger is
signaled at 105; and at the subsequent 107 tick no trigger fires
because the stop was deactivated at 105 — so the trigger is *not*
first signaled at 107. -/
theorem trailing_example_counterexample :
    (manager_process_tick
        (manager_process_tick exampleLongStop 110 none 1).1 105 none 2).2
      = true ∧
    (manager_process_tick
        (manager_process_tick
          (manager_process_tick exampleLongStop 110 none 1).1 105 none 2).1
        107 none 3).2 = false := by
  norm_num [manager_process_tick, update_trailing_stop, should_trigger,
    buy_candidate_stop, exampleLongStop, atrTruthy]

/-- **C2** (corrected): processing ticks 110, 105, 107 through the
update-then-check loop of `update_trailing_stops` yields: stop 108 and
no trigger at the 110 tick; at the 105 tick the stop remains 108, the
trigger is first signaled there (105 ≤ 108) and the stop is
deactivated; at the 107 tick nothing further happens. -/
theorem trailing_example_scenario :
    (manager_process_tick exampleLongStop 110 none 1).1.current_stop = 108 ∧
    (manager_process_tick exampleLongStop 110 none 1).2 = false ∧
    (manager_process_tick
        (manager_process_tick exampleLongStop 110 none 1).1 105 none 2).1.current_stop
      = 108 ∧
    (manager_process_tick
        (manager_process_tick exampleLongStop 110 none 1).1 105 none 2).2
      = true ∧
    (manager_process_tick
        (manager_process_tick exampleLongStop 110 none 1).1 105 none 2).1.is_active
      = false ∧
    (manager_process_tick
        (manager_process_tick
          (manager_process_tick exampleLongStop 110 none 1).1 105 none 2).1
        107 none 3).2 = false := by
  norm_num [manager_process_tick, update_trailing_stop, should_trigger,
    buy_candidate_stop, exampleLongStop, atrTruthy]

/-- **C10** (confirmed): once `is_active` is false, `update_trailing_stop`
returns `False` and leaves the whole state (every field) unchanged, and
`should_trigger` returns `False` for every price. -/
theorem inactive_stop_frozen (o : TrailingStopOrder) (p : ℚ)
    (atr : Option ℚ) (now : ℕ) (h : o.is_active = false) :
    update_trailing_stop o p atr now = (o, false) ∧
    should_trigger o p = false := by
  constructor
  · unfold update_trailing_stop; rw [if_pos h]
  · unfold should_trigger; rw [if_pos h]

/-- Witness for C10 at a concrete deactivated stop. -/
theorem inactive_stop_frozen_witness :
    ({ exampleLongStop with is_active := false } : TrailingStopOrder).is_active
      = false ∧
    (update_trailing_stop { exampleLongStop with is_active := false } 50 none 7 =
        ({ exampleLongStop with is_active := false }, false) ∧
      should_trigger { exampleLongStop with is_active := false } 50 = false) :=
  ⟨rfl, inactive_stop_frozen { exampleLongStop with is_active := false } 50 none 7 rfl⟩

/-- **C9** (code bug): `_analyze_volatility` computes the volatility
*percentage* (`atr / close * 100`) but compares it against the
*fraction*-scale thresholds `0.01 … 0.15`, and `is_high` against
`0.04`, although the inline comment says "> 4%".  At ATR = 2,
close = 100 (volatility 2% of price) the percentage is 2: the code
falls through every threshold and reports the default `MEDIUM` with
`is_high = True`, while the claimed 1/2/4/8/15 % bucketing gives `LOW`
with `is_high = False`. -/
theorem volatility_bucketing_unit_bug :
    volatility_pct_of 2 100 = 2 ∧
    volatility_level_of (volatility_pct_of 2 100) = VolatilityLevel.MEDIUM ∧
    volatility_is_high (volatility_pct_of 2 100) = true ∧
    claimed_volatility_level (volatility_pct_of 2 100) = VolatilityLevel.LOW ∧
    claimed_volatility_is_high (volatility_pct_of 2 100) = false := by
  norm_num [volatility_pct_of, volatility_level_of, volatility_thresholds,
    volatility_is_high, claimed_volatility_level, claimed_volatility_is_high,
    List.find?]

/-- **C4** counterexample: with leverage 10, price 50 000, step 0.001,
minimum quantity 0.001, minimum notional 5, `_execute_trade` computes
the accepted quantity 0.02 = (100 × 10) / 50 000 — not
0.002 = 1000 / (50 000 × 10) as the claim states — and the claim's
0.002 (value 100 USDT) would fail the 800–1200 USDT acceptance band,
so it could not be the accepted quantity. -/
theorem execute_trade_qty_counterexample :
    execute_trade_qty 10 50000 0.001 0.001 5 = 0.02 ∧
    ¬(execute_trade_qty 10 50000 0.001 0.001 5 = 0.002) ∧
    position_value_in_band ((0.002 : ℚ) * 50000) = false := by
  norm_num [execute_trade_qty, adjust_qty, pyRoundHalfUp, pyTrunc,
    position_value_in_band, abs_of_nonneg]

/-- **C4** (corrected): the raw quantity is the target position value of
100 USDT *times* leverage, divided by price (`required_value =
max(100 · leverage, minNotional)`, `qty = required_value / price`); at
leverage 10, price 50 000, step 0.001, the accepted quantity is 0.02,
whose value 1000 USDT passes the 800–1200 acceptance band. -/
theorem execute_trade_qty_scenario :
    execute_trade_qty 10 50000 0.001 0.001 5 = (100 * 10) / 50000 ∧
    execute_trade_qty 10 50000 0.001 0.001 5 * 50000 = 1000 ∧
    position_value_in_band (execute_trade_qty 10 50000 0.001 0.001 5 * 50000)
      = true := by
  norm_num [execute_trade_qty, adjust_qty, pyRoundHalfUp, pyTrunc,
    position_value_in_band, abs_of_nonneg]

/-- **C6** counterexample: five votes with SELL the winning side (3 SELL
vs 2 BUY) and CMF voting BUY; with `min_confirmation = 2` the code
returns `"BUY"` (the BUY branch is checked first and never compares the
two counts), while the claim's winning-side rule returns null (SELL
wins but CMF disagrees). -/
theorem should_trade_counterexample :
    should_trade
      [("CMF", "BUY"), ("RSI", "BUY"), ("MACD", "SELL"), ("BB", "SELL"),
       ("STOCH", "SELL")] 2 = some "BUY" ∧
    claimed_should_trade
      [("CMF", "BUY"), ("RSI", "BUY"), ("MACD", "SELL"), ("BB", "SELL"),
       ("STOCH", "SELL")] 2 = none ∧
    vote_count
      [("CMF", "BUY"), ("RSI", "BUY"), ("MACD", "SELL"), ("BB", "SELL"),
       ("STOCH", "SELL")] "BUY" = 2 ∧
    vote_count
      [("CMF", "BUY"), ("RSI", "BUY"), ("MACD", "SELL"), ("BB", "SELL"),
       ("STOCH", "SELL")] "SELL" = 3 := by
  decide

/-- **C6** (corrected): `should_trade` returns `"BUY"` iff the BUY vote
count reaches `min_confirmation` and the CMF vote is `"BUY"`, returns
`"SELL"` iff the SELL vote count reaches `min_confirmation` and the CMF
vote is `"SELL"`, and returns null otherwise — the decision follows the
CMF direction and never compares which side has more votes. -/
theorem should_trade_characterization (signals : List (String × String))
    (min_confirmation : ℕ) :
    (should_trade signals min_confirmation = some "BUY" ↔
      min_confirmation ≤ vote_count signals "BUY" ∧
        dict_get signals "CMF" "HOLD" = "BUY") ∧
    (should_trade signals min_confirmation = some "SELL" ↔
      min_confirmation ≤ vote_count signals "SELL" ∧
        dict_get signals "CMF" "HOLD" = "SELL") ∧
    (should_trade signals min_confirmation = none ↔
      ¬(min_confirmation ≤ vote_count signals "BUY" ∧
          dict_get signals "CMF" "HOLD" = "BUY") ∧
      ¬(min_confirmation ≤ vote_count signals "SELL" ∧
          dict_get signals "CMF" "HOLD" = "SELL")) := by
  unfold should_trade
  split_ifs with h1 h2 <;> simp_all

/-- Witness for C6's characterization at a concrete vote map. -/
theorem should_trade_characterization_witness :
    should_trade [("CMF", "BUY"), ("RSI", "BUY")] 2 = some "BUY" ↔
      2 ≤ vote_count [("CMF", "BUY"), ("RSI", "BUY")] "BUY" ∧
        dict_get [("CMF", "BUY"), ("RSI", "BUY")] "CMF" "HOLD" = "BUY" :=
  (should_trade_characterization [("CMF", "BUY"), ("RSI", "BUY")] 2).1

/-- The `signals` counter always equals `long_votes + short_votes`:
every branch of `detect_reversal` that increments `signals` increments
exactly one of the two vote counters. -/
theorem reversal_signals_eq (i : ReversalInputs) :
    reversal_signals i = reversal_long_votes i + reversal_short_votes i := by
  unfold reversal_signals reversal_long_votes reversal_short_votes
  split_ifs <;> omega

/-- **C7** counterexample: with RSI 20 (an oversold long vote) and
resistance distance 0 (a short vote) and everything else neutral, no
direction has 2 agreeing votes, yet `detect_reversal` returns
`(True, None)` — the reversal flag is raised, contradicting the claim
that fewer than 2 agreeing same-direction votes returns no
reversal. -/
theorem detect_reversal_counterexample :
    detect_reversal_core
      { last_rsi := 20, macd := 0, macd_signal := 0, close := 50,
        lower_bb := 40, upper_bb := 60, support_distance := 100,
        resistance_distance := 0, patterns := [] } = (true, none) ∧
    reversal_long_votes
      { last_rsi := 20, macd := 0, macd_signal := 0, close := 50,
        lower_bb := 40, upper_bb := 60, support_distance := 100,
        resistance_distance := 0, patterns := [] } < 2 ∧
    reversal_short_votes
      { last_rsi := 20, macd := 0, macd_signal := 0, close := 50,
        lower_bb := 40, upper_bb := 60, support_distance := 100,
        resistance_distance := 0, patterns := [] } < 2 := by
  norm_num [detect_reversal_core, reversal_signals, reversal_long_votes,
    reversal_short_votes, has_bullish_pattern, has_bearish_pattern]

/-- **C7** (corrected, no higher-timeframe confirmation configured): a
direction is declared iff that direction has at least 2 agreeing votes
— `"long"` iff the long votes reach 2 (long takes precedence when both
sides reach 2), `"short"` iff the short votes reach 2 and the long
votes do not — while the raw reversal flag is raised exactly when the
*total* vote count (both directions combined) reaches 2, which can
happen with two opposite single votes and a null direction. -/
theorem detect_reversal_characterization (i : ReversalInputs) :
    ((detect_reversal_core i).2 = some "long" ↔ 2 ≤ reversal_long_votes i) ∧
    ((detect_reversal_core i).2 = some "short" ↔
      2 ≤ reversal_short_votes i ∧ reversal_long_votes i < 2) ∧
    ((detect_reversal_core i).1 = true ↔
      2 ≤ reversal_long_votes i + reversal_short_votes i) := by
  unfold detect_reversal_core
  rw [reversal_signals_eq]
  split_ifs with h1 h2 h3 <;> simp_all
  all_goals omega

/-- Witness for C7's characterization at a concrete input with three
long votes. -/
theorem detect_reversal_characterization_witness :
    (detect_reversal_core
        { last_rsi := 20, macd := 0, macd_signal := 0, close := 30,
          lower_bb := 40, upper_bb := 60, support_distance := 0,
          resistance_distance := 100, patterns := [] }).2 = some "long" ↔
      2 ≤ reversal_long_votes
        { last_rsi := 20, macd := 0, macd_signal := 0, close := 30,
          lower_bb := 40, upper_bb := 60, support_distance := 0,
          resistance_distance := 100, patterns := [] } :=
  (detect_reversal_characterization _).1

/-! ## Lemmas for position reconciliation -/

theorem key_mem_iff (k : String × String) (ks : List (String × String)) :
    key_mem k ks = true ↔ k ∈ ks := by
  simp [key_mem, List.any_eq_true]

theorem real_keys_mem (real_positions : List ExchangePosition)
    (k : String × String) :
    k ∈ real_keys real_positions ↔
      ∃ p ∈ real_positions, 0 < p.size ∧ position_key p = k := by
  simp only [real_keys, List.mem_map, List.mem_filter, decide_eq_true_eq]
  constructor
  · rintro ⟨p, ⟨hp, hs⟩, hk⟩
    exact ⟨p, hp, hs, hk⟩
  · rintro ⟨p, hp, hs, hk⟩
    exact ⟨p, ⟨hp, hs⟩, hk⟩

theorem sync_add_step_keys (acc : List ((String × String) × ExchangePosition))
    (p : ExchangePosition) (k : String × String) :
    k ∈ (sync_add_step acc p).map Prod.fst ↔
      k ∈ acc.map Prod.fst ∨ (0 < p.size ∧ position_key p = k) := by
  unfold sync_add_step
  split_ifs with h
  · obtain ⟨hmem, hsize⟩ := h
    simp only [List.map_append, List.map_cons, List.map_nil,
      List.mem_append, List.mem_singleton]
    constructor
    · rintro (hk | hk)
      · exact Or.inl hk
      · exact Or.inr ⟨hsize, hk.symm⟩
    · rintro (hk | ⟨_, hk⟩)
      · exact Or.inl hk
      · exact Or.inr hk.symm
  · constructor
    · exact Or.inl
    · rintro (hk | ⟨hsize, hk⟩)
      · exact hk
      · have hnf : ¬ key_mem (position_key p) (acc.map Prod.fst) = false :=
          fun hf => h ⟨hf, hsize⟩
        have htrue : key_mem (position_key p) (acc.map Prod.fst) = true := by
          cases hb : key_mem (position_key p) (acc.map Prod.fst)
          · exact absurd hb hnf
          · rfl
        rw [key_mem_iff] at htrue
        rwa [hk] at htrue

theorem sync_fold_keys (real_positions : List ExchangePosition) :
    ∀ (acc : List ((String × String) × ExchangePosition)) (k : String × String),
      k ∈ (real_positions.foldl sync_add_step acc).map Prod.fst ↔
        k ∈ acc.map Prod.fst ∨
          ∃ p ∈ real_positions, 0 < p.size ∧ position_key p = k := by
  induction real_positions with
  | nil => intro acc k; simp
  | cons q qs ih =>
      intro acc k
      rw [List.foldl_cons, ih, sync_add_step_keys]
      simp only [List.mem_cons]
      constructor
      · rintro ((hk | hq) | ⟨p, hp, hs, hpk⟩)
        · exact Or.inl hk
        · exact Or.inr ⟨q, Or.inl rfl, hq⟩
        · exact Or.inr ⟨p, Or.inr hp, hs, hpk⟩
      · rintro (hk | ⟨p, (rfl | hp), hs, hpk⟩)
        · exact Or.inl (Or.inl hk)
        · exact Or.inl (Or.inr ⟨hs, hpk⟩)
        · exact Or.inr ⟨p, hp, hs, hpk⟩

/-- **C8** (confirmed): after the remove-then-add pass of
`sync_positions_with_exchange`, the set of locally tracked
`(symbol, side)` keys equals exactly the set of keys of
exchange-reported positions with `size > 0`, for every initial local
ledger and every exchange list. -/
theorem sync_positions_key_set
    (active : List ((String × String) × ExchangePosition))
    (real_positions : List ExchangePosition) (k : String × String) :
    k ∈ (sync_positions active real_positions).map Prod.fst ↔
      ∃ p ∈ real_positions, 0 < p.size ∧ position_key p = k := by
  unfold sync_positions
  rw [sync_fold_keys]
  constructor
  · rintro (hk | h)
    · simp only [List.mem_map, List.mem_filter] at hk
      obtain ⟨kv, ⟨hkv, hmem⟩, hfst⟩ := hk
      rw [key_mem_iff] at hmem
      rw [← real_keys_mem]
      rwa [hfst] at hmem
    · exact h
  · intro h
    exact Or.inr h

/-- Witness for C8 at a concrete ledger and exchange list. -/
theorem sync_positions_key_set_witness :
    ("BTCUSDT", "Buy") ∈
        (sync_positions [(("ETHUSDT", "Sell"), ⟨"ETHUSDT", "Sell", 2⟩)]
          [⟨"BTCUSDT", "Buy", 1⟩]).map Prod.fst ↔
      ∃ p ∈ [(⟨"BTCUSDT", "Buy", 1⟩ : ExchangePosition)],
        0 < p.size ∧ position_key p = ("BTCUSDT", "Buy") :=
  sync_positions_key_set [(("ETHUSDT", "Sell"), ⟨"ETHUSDT", "Sell", 2⟩)]
    [⟨"BTCUSDT", "Buy", 1⟩] ("BTCUSDT", "Buy")

/-! ## Lemmas for the order-submission retry loop -/

theorem place_order_go_len_mono (exch : ℕ → OrderResponse) :
    ∀ (n : ℕ) (amount : ℚ) (submitted : List ℚ),
      submitted.length ≤ (place_order_go exch n amount submitted).submitted.length := by
  intro n
  induction n with
  | zero => intro amount submitted; simp [place_order_go]
  | succ m ih =>
      intro amount submitted
      rw [place_order_go]
      split_ifs
      · simp
      · simp
      · calc submitted.length ≤ (submitted ++ [amount]).length := by simp
          _ ≤ _ := ih _ _
      · simp

theorem place_order_go_len_le (exch : ℕ → OrderResponse) :
    ∀ (n : ℕ) (amount : ℚ) (submitted : List ℚ),
      (place_order_go exch n amount submitted).submitted.length ≤
        submitted.length + n := by
  intro n
  induction n with
  | zero => intro amount submitted; simp [place_order_go]
  | succ m ih =>
      intro amount submitted
      rw [place_order_go]
      split_ifs
      · simp
      · simp
      · calc (place_order_go exch m _ (submitted ++ [amount])).submitted.length
            ≤ (submitted ++ [amount]).length + m := ih _ _
          _ ≤ submitted.length + (m + 1) := by
            simp only [List.length_append, List.length_singleton]
            omega
      · simp

theorem place_order_go_submitted_prefix (exch : ℕ → OrderResponse) :
    ∀ (n : ℕ) (amount : ℚ) (submitted : List ℚ),
      ∃ rest, (place_order_go exch n amount submitted).submitted =
        submitted ++ rest := by
  intro n
  induction n with
  | zero => intro amount submitted; exact ⟨[], by simp [place_order_go]⟩
  | succ m ih =>
      intro amount submitted
      rw [place_order_go]
      split_ifs
      · exact ⟨[amount], rfl⟩
      · exact ⟨[amount], rfl⟩
      · obtain ⟨r, hr⟩ := ih (pyRound3 (amount * 2)) (submitted ++ [amount])
        exact ⟨[amount] ++ r, by rw [hr, List.append_assoc]⟩
      · exact ⟨[amount], rfl⟩

/-- **C5** (confirmed): `place_order` submits at least once and at most
`max_attempts = 3` times; a first rejection outside the
margin-insufficiency class (`retMsg` containing `"110007"` or
`"ab not enough for new order"`) is returned immediately as a
structured failure (`success: false` with the exchange's message) after
exactly one submission; a margin-insufficiency rejection doubles the
requested quantity (`round(amount * 2, 3)`) — aborting instead if the
doubled quantity would exceed the absolute ceiling 1000 — and the next
submission uses the doubled quantity. -/
theorem place_order_retry_policy (exch : ℕ → OrderResponse) (amount : ℚ) :
    1 ≤ (place_order exch amount).submitted.length ∧
    (place_order exch amount).submitted.length ≤ 3 ∧
    ((exch 0).retCode ≠ 0 → is_margin_error (exch 0).retMsg = false →
      place_order exch amount =
        { success := false, error := some (exch 0).retMsg,
          submitted := [amount] }) ∧
    ((exch 0).retCode ≠ 0 → is_margin_error (exch 0).retMsg = true →
      (1000 < pyRound3 (amount * 2) →
        place_order exch amount =
          { success := false, error := some "Достигнут лимит qty",
            submitted := [amount] }) ∧
      (pyRound3 (amount * 2) ≤ 1000 →
        ∃ rest, (place_order exch amount).submitted =
          amount :: pyRound3 (amount * 2) :: rest)) := by
  refine ⟨?_, ?_, ?_, ?_⟩
  · unfold place_order
    rw [place_order_go]
    split_ifs
    · simp
    · simp
    · have h := place_order_go_len_mono exch 2 (pyRound3 (amount * 2))
        ([] ++ [amount])
      simpa using h
    · simp
  · have h := place_order_go_len_le exch 3 amount []
    simpa [place_order] using h
  · intro h1 h2
    unfold place_order
    rw [place_order_go]
    rw [if_neg (by simpa using h1), if_neg (by simp [h2]), List.nil_append]
    rfl
  · intro h1 h2
    constructor
    · intro h3
      unfold place_order
      rw [place_order_go]
      rw [if_neg (by simpa using h1), if_pos (by simpa using h2), if_pos h3,
        List.nil_append]
    · intro h3
      unfold place_order
      rw [place_order_go]
      rw [if_neg (by simpa using h1), if_pos (by simpa using h2),
        if_neg (by exact not_lt.mpr h3)]
      rw [place_order_go]
      split_ifs
      · exact ⟨[], rfl⟩
      · exact ⟨[], rfl⟩
      · obtain ⟨r, hr⟩ :=
          place_order_go_submitted_prefix exch 1 (pyRound3 (pyRound3 (amount * 2) * 2))
            (([] ++ [amount]) ++ [pyRound3 (amount * 2)])
        exact ⟨r, by rw [hr]; simp⟩
      · exact ⟨[], rfl⟩

/-- Witness for C5: a non-margin rejection is surfaced immediately as a
structured failure after a single submission. -/
theorem place_order_retry_policy_witness :
    ((fun _ => ({ retCode := 10001, retMsg := "10001, params error" } :
        OrderResponse)) (0 : ℕ)).retCode ≠ 0 ∧
    is_margin_error
      ((fun _ => ({ retCode := 10001, retMsg := "10001, params error" } :
        OrderResponse)) (0 : ℕ)).retMsg = false ∧
    place_order
        (fun _ => ({ retCode := 10001, retMsg := "10001, params error" } :
          OrderResponse)) 1 =
      { success := false, error := some "10001, params error",
        submitted := [1] } :=
  ⟨by decide, by decide,
   (place_order_retry_policy
      (fun _ => ({ retCode := 10001, retMsg := "10001, params error" } :
        OrderResponse)) 1).2.2.1 (by decide) (by decide)⟩

/-! ## Lemmas for quantity formatting -/

theorem pyRoundHalfUp_ge_sub_half (x : ℚ) :
    x - 1/2 ≤ (pyRoundHalfUp x : ℚ) := by
  unfold pyRoundHalfUp
  split_ifs with h
  · have hf := Int.sub_one_lt_floor (x + 1/2)
    linarith
  · have hf := Int.floor_le (-x + 1/2)
    push_cast
    linarith

theorem le_pyRoundHalfUp (z : ℤ) (x : ℚ) (hx : 0 ≤ x) (h : (z : ℚ) ≤ x) :
    z ≤ pyRoundHalfUp x := by
  unfold pyRoundHalfUp
  rw [if_pos hx]
  exact Int.le_floor.mpr (by linarith)

theorem format_qty_clamped_ge (qty min_order_qty : ℚ) :
    min_order_qty ≤ format_qty_clamped qty min_order_qty := by
  unfold format_qty_clamped
  split_ifs with h
  · exact le_refl _
  · exact le_of_not_lt h

theorem format_qty_stepped_ge (x qty_step min_order_qty : ℚ) (k : ℤ)
    (hstep : 0 < qty_step) (hk : min_order_qty = (k : ℚ) * qty_step)
    (hkpos : 0 ≤ (k : ℚ)) (hx : min_order_qty ≤ x) :
    min_order_qty ≤ format_qty_stepped x qty_step := by
  unfold format_qty_stepped
  rw [if_pos hstep]
  have hdiv : (k : ℚ) ≤ x / qty_step := by
    rw [le_div_iff₀ hstep, ← hk]
    exact hx
  have hkle : k ≤ pyRoundHalfUp (x / qty_step) :=
    le_pyRoundHalfUp k _ (le_trans hkpos hdiv) hdiv
  rw [hk]
  exact mul_le_mul_of_nonneg_right (by exact_mod_cast hkle) (le_of_lt hstep)

theorem format_qty_stepped_multiple (x qty_step : ℚ) (hstep : 0 < qty_step) :
    ∃ z : ℤ, format_qty_stepped x qty_step = (z : ℚ) * qty_step := by
  unfold format_qty_stepped
  rw [if_pos hstep]
  exact ⟨pyRoundHalfUp (x / qty_step), rfl⟩

theorem format_qty_notional_ge_input (qty price qty_step min_notional_value : ℚ) :
    qty ≤ format_qty_notional qty price qty_step min_notional_value := by
  unfold format_qty_notional
  split_ifs with h1 h2
  · exact le_of_lt h2
  · exact le_refl _
  · exact le_refl _

theorem format_qty_notional_ge_min (qty price qty_step min_notional_value : ℚ)
    (hprice : 0 < price) :
    min_qty_for_value price qty_step min_notional_value ≤
      format_qty_notional qty price qty_step min_notional_value := by
  unfold format_qty_notional
  rw [if_pos hprice]
  split_ifs with h2
  · exact le_refl _
  · exact le_of_not_lt h2

theorem format_qty_notional_multiple (qty price qty_step min_notional_value : ℚ)
    (z : ℤ) (hz : qty = (z : ℚ) * qty_step) :
    ∃ w : ℤ, format_qty_notional qty price qty_step min_notional_value
      = (w : ℚ) * qty_step := by
  unfold format_qty_notional min_qty_for_value
  split_ifs
  · exact ⟨pyRoundHalfUp ((min_notional_value / price) / qty_step), rfl⟩
  · exact ⟨z, hz⟩
  · exact ⟨z, hz⟩

theorem format_qty_multiple_fix_id (qty qty_step : ℚ) (z : ℤ)
    (hstep : qty_step ≠ 0) (hz : qty = (z : ℚ) * qty_step) :
    format_qty_multiple_fix qty qty_step = qty := by
  unfold format_qty_multiple_fix
  rw [if_pos]
  rw [hz, mul_div_assoc, div_self hstep, mul_one, Int.floor_intCast]

theorem min_qty_for_value_lb (price qty_step min_notional_value : ℚ)
    (hstep : 0 < qty_step) :
    min_notional_value / price - qty_step / 2 ≤
      min_qty_for_value price qty_step min_notional_value := by
  unfold min_qty_for_value
  have h1 := pyRoundHalfUp_ge_sub_half ((min_notional_value / price) / qty_step)
  have h2 := mul_le_mul_of_nonneg_right h1 (le_of_lt hstep)
  calc min_notional_value / price - qty_step / 2
      = ((min_notional_value / price) / qty_step - 1/2) * qty_step := by
        rw [sub_mul, div_mul_cancel₀ _ hstep.ne']
        ring
    _ ≤ _ := h2

/-- **C3** counterexample: with qtyStep 0.1, minOrderQty 0.1,
minNotionalValue 5 and price 49, the input quantity 0.1 is returned
unchanged although its notional is 4.9 < 5 — the minimum-notional
floor 5/49 ≈ 0.102 is rounded to the *nearest* step (0.1) rather than
up (0.2), so requirement (c) fails; and with minOrderQty 0.14 (not a
step multiple), step 0.1, price 1000, input 0.01, the result 0.1 is
below minOrderQty, so requirement (b) fails as well. -/
theorem format_qty_counterexample :
    format_qty_for_bybit 0.1 49 0.1 0.1 5 = 0.1 ∧
    format_qty_for_bybit 0.1 49 0.1 0.1 5 * 49 < 5 ∧
    format_qty_for_bybit 0.01 1000 0.1 0.14 5 = 0.1 ∧
    format_qty_for_bybit 0.01 1000 0.1 0.14 5 < 0.14 := by
  norm_num [format_qty_for_bybit, format_qty_clamped, format_qty_stepped,
    format_qty_notional, min_qty_for_value, format_qty_multiple_fix,
    pyRoundHalfUp]

/-- **C3** (corrected): for every positive price and step, the quantity
produced by `format_qty_for_bybit` is (a) an exact integer multiple of
`qtyStep`; (b) at least `minOrderQty` provided `minOrderQty` is itself
a positive integer multiple of `qtyStep` (as on the real exchange);
and (c) its notional `qty × price` is at least
`minNotionalValue − qtyStep × price / 2` — within half a step of the
claimed minimum only, because the min-notional floor is rounded to the
nearest step instead of up. -/
theorem format_qty_compliance (qty price qty_step min_order_qty
    min_notional_value : ℚ)
    (hprice : 0 < price) (hstep : 0 < qty_step) (hminq : 0 < min_order_qty)
    (hmul : ∃ k : ℤ, min_order_qty = (k : ℚ) * qty_step) :
    (∃ z : ℤ, format_qty_for_bybit qty price qty_step min_order_qty
        min_notional_value = (z : ℚ) * qty_step) ∧
    min_order_qty ≤
      format_qty_for_bybit qty price qty_step min_order_qty
        min_notional_value ∧
    min_notional_value - qty_step * price / 2 ≤
      format_qty_for_bybit qty price qty_step min_order_qty
          min_notional_value * price := by
  obtain ⟨k, hk⟩ := hmul
  have hkpos : (0 : ℚ) ≤ (k : ℚ) := by
    rcases le_or_lt 0 (k : ℚ) with h | h
    · exact h
    · exfalso
      nlinarith [hminq, hstep, hk]
  obtain ⟨z2, hz2⟩ :=
    format_qty_stepped_multiple (format_qty_clamped qty min_order_qty)
      qty_step hstep
  obtain ⟨w, hw⟩ :=
    format_qty_notional_multiple
      (format_qty_stepped (format_qty_clamped qty min_order_qty) qty_step)
      price qty_step min_notional_value z2 hz2
  have hfix :
      format_qty_for_bybit qty price qty_step min_order_qty
          min_notional_value =
        format_qty_notional
          (format_qty_stepped (format_qty_clamped qty min_order_qty) qty_step)
          price qty_step min_notional_value := by
    unfold format_qty_for_bybit
    exact format_qty_multiple_fix_id _ _ w (ne_of_gt hstep) hw
  refine ⟨⟨w, by rw [hfix]; exact hw⟩, ?_, ?_⟩
  · rw [hfix]
    calc min_order_qty
        ≤ format_qty_stepped (format_qty_clamped qty min_order_qty) qty_step :=
          format_qty_stepped_ge _ _ _ k hstep hk hkpos
            (format_qty_clamped_ge qty min_order_qty)
      _ ≤ _ := format_qty_notional_ge_input _ _ _ _
  · rw [hfix]
    have hge : min_notional_value / price - qty_step / 2 ≤
        format_qty_notional
          (format_qty_stepped (format_qty_clamped qty min_order_qty) qty_step)
          price qty_step min_notional_value :=
      le_trans (min_qty_for_value_lb price qty_step min_notional_value hstep)
        (format_qty_notional_ge_min _ _ _ _ hprice)
    have hmulp := mul_le_mul_of_nonneg_right hge (le_of_lt hprice)
    calc min_notional_value - qty_step * price / 2
        = (min_notional_value / price - qty_step / 2) * price := by
          field_simp
          ring
      _ ≤ _ := hmulp

/-- Witness for C3's corrected compliance at Bybit-like constraints:
qty 0.003, price 50 000, step 0.001, minOrderQty 0.001,
minNotionalValue 5. -/
theorem format_qty_compliance_witness :
    ((0 : ℚ) < 50000 ∧ (0 : ℚ) < 0.001 ∧ (0 : ℚ) < 0.001) ∧
    (0.001 : ℚ) ≤ format_qty_for_bybit 0.003 50000 0.001 0.001 5 :=
  ⟨⟨by norm_num, by norm_num, by norm_num⟩,
   (format_qty_compliance 0.003 50000 0.001 0.001 5 (by norm_num)
      (by norm_num) (by norm_num) ⟨1, by norm_num⟩).2.1⟩

end BybitBot
